import Mathlib

/-!
Verification of the file-browser operation gateway
(`nodes/file_browser.py`): seven handlers (List, Read, Write, Copy,
MakeDir, Delete, Exec) that wrap OS calls in try/except blocks and
report every failure inside their returned tuples.

Modelling conventions, used uniformly below:

* The operating system is an oracle `OSEnv` of pure functions answering
  each OS query the Python code makes (`Path.resolve`, `exists`,
  `is_dir`, `stat`, `iterdir`, `open`/read, `subprocess.run`, ...).
  Calls that can raise in Python return `Except PyErr _`; `exists`,
  `is_dir`, `is_file` return `Bool` because `pathlib` swallows
  `OSError` in these predicates.
* A raised Python exception is an `Except.error`; each handler is the
  literal translation of its `try` block (the `..._body` definition)
  wrapped by the translation of its `except` clauses (`catchAll`,
  `catchAllT`, `catchPerm`, `execCatch`).  A handler result of
  `Except.error` would mean an exception escaped to the orchestrator.
* Filesystem mutations (`mkdir`, `unlink`, `open(..,'w')`,
  `shutil.copy2`) are recorded in an explicit trace `List MutOp`, the
  "filesystem-mutation spy" of the spec; an empty trace means the call
  touched nothing.
* `json.dumps` is modelled by a plain renderer over the flat payload
  shapes the code builds (string-escaping and the `indent=2` layout are
  not reproduced; all claims use only identity/distinctness of these
  payloads, which the renderer preserves).
* `st_mtime` (a float in Python) is modelled as an integer timestamp:
  no claim inspects its value.
* Per-item `item.stat()` during directory enumeration is modelled as
  total item metadata carried on `DirItem`.
-/

/-- A Python exception, as visible to this module's `except` clauses:
`PermissionError`, `subprocess.TimeoutExpired` (carrying any output the
child produced before termination, which `TimeoutExpired` exposes but
the code never reads), or any other `Exception` with its `str(e)`. -/
inductive PyErr where
  | permission (msg : String)
  | timeout (partialOut partialErr : String)
  | other (msg : String)
  deriving DecidableEq

/-- `str(e)` for a caught exception. -/
def PyErr.str : PyErr → String
  | .permission m => m
  | .timeout _ _ => "TimeoutExpired"
  | .other m => m

/-- A scalar JSON value appearing in the payloads the code builds. -/
inductive JScalar where
  | str (s : String)
  | num (n : Int)
  | bool (b : Bool)
  deriving DecidableEq

/-- Renderer for a scalar JSON value. -/
def JScalar.dumps : JScalar → String
  | .str s => "\"" ++ s ++ "\""
  | .num n => toString n
  | .bool b => if b then "true" else "false"

/-- Renderer for `json.dumps` of a flat dict (all payloads in the code
are flat dicts or arrays of flat dicts). -/
def dumpsObj (fields : List (String × JScalar)) : String :=
  "\x7b" ++ String.intercalate ", "
    (fields.map (fun kv => "\"" ++ kv.1 ++ "\": " ++ JScalar.dumps kv.2)) ++ "\x7d"

/-- Renderer for `json.dumps` of a list of flat dicts. -/
def dumpsArr (l : List (List (String × JScalar))) : String :=
  "[" ++ String.intercalate ", " (l.map dumpsObj) ++ "]"

/-- `json.dumps({"error": msg})`. -/
def jerr (msg : String) : String := dumpsObj [("error", .str msg)]

/-- One entry yielded by `path.iterdir()`, with the metadata the loop
body reads from it (`name`, `str(item)`, `stat().st_size`,
`stat().st_mtime`, `is_dir()`, `is_file()`, `is_symlink()`). -/
structure DirItem where
  name : String
  path : String
  size : Nat
  mtime : Int
  isDir : Bool
  isFile : Bool
  isSymlink : Bool
  deriving DecidableEq

/-- A filesystem mutation attempted by a handler (the spy record). -/
inductive MutOp where
  | mkdirParents (parent : String)
  | writeOp (path content encoding : String)
  | copyOp (src dst : String)
  | mkdirOp (path : String) (parents : Bool)
  | unlinkOp (path : String)
  deriving DecidableEq

/-- Outcome of `subprocess.run(command, shell=True, cwd=.., capture_output=..,
text=True, timeout=..)`: normal completion (with the `stdout`/`stderr`
attributes, which are `None` when output is not captured, and the
`returncode`), `TimeoutExpired`, or any other launch failure. -/
inductive RunOutcome where
  | completed (stdout stderr : Option String) (returncode : Int)
  | timedOut (partialOut partialErr : String)
  | failed (msg : String)
  deriving DecidableEq

/-- The OS oracle: one pure function per OS query/mutation the handlers
perform.  Mutating primitives return `Except PyErr Unit` — whether the
attempt raised — while the attempt itself is logged in the handler's
trace. -/
structure OSEnv where
  resolve : String → Except PyErr String
  pathExists : String → Bool
  isDir : String → Bool
  isFile : String → Bool
  statSize : String → Except PyErr Nat
  statMtime : String → Except PyErr Int
  pathName : String → String
  parent : String → String
  iterdir : String → Except PyErr (List DirItem)
  globMatch : String → String → Bool
  readText : String → String → Except PyErr String
  readBinary : String → Except PyErr String
  mkdirParentsRes : String → Except PyErr Unit
  writeRes : String → String → String → Except PyErr Unit
  copyRes : String → String → Except PyErr Unit
  mkdirRes : String → Bool → Except PyErr Unit
  unlinkRes : String → Except PyErr Unit
  run : String → Option String → Nat → Bool → RunOutcome

/-- `except Exception as e:` — converts any raised exception into the
handler's error tuple; a normal result passes through. -/
def catchAll (f : PyErr → α) : Except PyErr α → Except PyErr α
  | .ok t => .ok t
  | .error e => .ok (f e)

/-- `except Exception as e:` for a handler that also carries a mutation
trace; the trace of the work done before the exception persists. -/
def catchAllT (f : PyErr → α) : Except PyErr α × List MutOp → Except PyErr α × List MutOp
  | (.ok t, tr) => (.ok t, tr)
  | (.error e, tr) => (.ok (f e), tr)

/-- `except PermissionError:` — catches only `PermissionError`, other
exceptions keep propagating. -/
def catchPerm (onPerm : String → α) : Except PyErr α → Except PyErr α
  | .error (.permission m) => .ok (onPerm m)
  | r => r

/-- `result.stdout if result.stdout else ""` (`None` and the empty
string are both falsy and both map to `""`). -/
def orEmpty : Option String → String
  | none => ""
  | some s => s

/-! ## List (FileBrowser.browse_files) -/

/-- `item.name.startswith('.')` — the hidden-file marker test (first
character is the dot). -/
def hiddenName (s : String) : Bool :=
  match s.data with
  | [] => false
  | c :: _ => c == '.'

/-- The `for item in path.iterdir():` loop body: skip hidden names
unless `show_hidden`, classify into directories (`is_dir()` first) and
files (`is_file()`, subject to the filter pattern), drop everything
else.  `matchFn` stands for `item.match(filter_pattern)`. -/
def browseLoop (show_hidden : Bool) (filter_pattern : String)
    (matchFn : String → String → Bool) : List DirItem → List DirItem × List DirItem
  | [] => ([], [])
  | item :: rest =>
    if !show_hidden && hiddenName item.name then
      browseLoop show_hidden filter_pattern matchFn rest
    else
      let fd := browseLoop show_hidden filter_pattern matchFn rest
      if item.isDir then (fd.1, item :: fd.2)
      else if item.isFile then
        if filter_pattern == "*" || matchFn item.path filter_pattern then
          (item :: fd.1, fd.2)
        else fd
      else fd

/-- The sort key relation of `files.sort(key=lambda x: x["name"].lower())`. -/
def browseLe (a b : DirItem) : Prop := a.name.toLower ≤ b.name.toLower

instance : DecidableRel browseLe := fun a b =>
  inferInstanceAs (Decidable (a.name.toLower ≤ b.name.toLower))

instance : IsTotal DirItem browseLe := ⟨fun a b => le_total a.name.toLower b.name.toLower⟩

instance : IsTrans DirItem browseLe := ⟨fun _ _ _ hab hbc => le_trans hab hbc⟩

/-- `l.sort(key=lambda x: x["name"].lower())` (a stable sort by the
case-folded name). -/
def sortByName (l : List DirItem) : List DirItem := List.insertionSort browseLe l

/-- Enumeration, filtering and sorting of a directory's children — the
success path of `browse_files` after the preconditions hold. -/
def browseEntries (show_hidden : Bool) (filter_pattern : String)
    (matchFn : String → String → Bool) (items : List DirItem) :
    List DirItem × List DirItem :=
  let fd := browseLoop show_hidden filter_pattern matchFn items
  (sortByName fd.1, sortByName fd.2)

/-- The `item_info` dict built for each enumerated entry. -/
def itemFields (it : DirItem) : List (String × JScalar) :=
  [("name", .str it.name), ("path", .str it.path),
   ("size", .num (if it.isFile then (it.size : Int) else 0)),
   ("modified", .num it.mtime),
   ("is_dir", .bool it.isDir), ("is_file", .bool it.isFile),
   ("is_symlink", .bool it.isSymlink)]

/-- The inner `try` of `browse_files`: enumerate, filter, sort, encode. -/
def browse_inner (env : OSEnv) (p : String) (show_hidden : Bool)
    (filter_pattern : String) : Except PyErr (String × String × String) :=
  match env.iterdir p with
  | .error e => .error e
  | .ok items =>
    let fd := browseEntries show_hidden filter_pattern env.globMatch items
    .ok (dumpsArr (fd.1.map itemFields), dumpsArr (fd.2.map itemFields), p)

/-- The outer `try` of `FileBrowser.browse_files`. -/
def browse_files_body (env : OSEnv) (directory_path : String)
    (show_hidden : Bool) (filter_pattern : String) :
    Except PyErr (String × String × String) :=
  match env.resolve directory_path with
  | .error e => .error e
  | .ok path =>
    if !env.pathExists path then
      .ok (jerr "Path does not exist", jerr "Path does not exist", directory_path)
    else if !env.isDir path then
      .ok (jerr "Path is not a directory", jerr "Path is not a directory", directory_path)
    else
      catchPerm (fun _ => (jerr "Permission denied", jerr "Permission denied", path))
        (browse_inner env path show_hidden filter_pattern)

/-- `FileBrowser.browse_files`: returns `(files_json, directories_json,
current_path)`. -/
def browse_files (env : OSEnv) (directory_path : String)
    (show_hidden : Bool) (filter_pattern : String) :
    Except PyErr (String × String × String) :=
  catchAll (fun e => (jerr e.str, jerr e.str, directory_path))
    (browse_files_body env directory_path show_hidden filter_pattern)

/-! ## Read (FileReader.read_file) -/

/-- Two-decimal rendering of `file_size / 1024 / 1024` used in the
too-large status line (Python formats the float with `:.2f`; the
rounding mode of the last decimal is immaterial to every claim). -/
def mbTwoDecimals (bytes : Nat) : String :=
  let h := bytes * 100 / (1024 * 1024)
  toString (h / 100) ++ "." ++ (if h % 100 < 10 then "0" else "") ++ toString (h % 100)

/-- The status string of the size-ceiling failure. -/
def tooLargeStatus (file_size max_size_mb : Nat) : String :=
  "Error: File too large (" ++ mbTwoDecimals file_size ++ " MB > " ++
    toString max_size_mb ++ " MB)"

/-- The tail of `read_file` after the size check passed: read the file
(base64-marking binary reads), then build `file_info`. -/
def read_file_content (env : OSEnv) (path encoding : String)
    (file_size : Nat) : Except PyErr (String × String) :=
  match (if encoding == "binary" then
          (env.readBinary path).map (fun c => "[Binary file - Base64 encoded]\n" ++ c)
         else env.readText path encoding) with
  | .error e => .error e
  | .ok content =>
    match env.statMtime path with
    | .error e => .error e
    | .ok mt =>
      .ok (content,
        dumpsObj [("name", .str (env.pathName path)), ("path", .str path),
                  ("size", .num (file_size : Int)), ("modified", .num mt),
                  ("encoding", .str encoding)])

/-- The `try` of `FileReader.read_file`. -/
def read_file_body (env : OSEnv) (file_path encoding : String)
    (max_size_mb : Nat) : Except PyErr (String × String) :=
  match env.resolve file_path with
  | .error e => .error e
  | .ok path =>
    if !env.pathExists path then
      .ok ("Error: File does not exist", jerr "File does not exist")
    else if !env.isFile path then
      .ok ("Error: Path is not a file", jerr "Path is not a file")
    else
      match env.statSize path with
      | .error e => .error e
      | .ok file_size =>
        if file_size > max_size_mb * 1024 * 1024 then
          .ok (tooLargeStatus file_size max_size_mb,
               dumpsObj [("error", .str "File too large"), ("size", .num (file_size : Int))])
        else
          read_file_content env path encoding file_size

/-- `FileReader.read_file`: returns `(content, file_info)`. -/
def read_file (env : OSEnv) (file_path encoding : String)
    (max_size_mb : Nat) : Except PyErr (String × String) :=
  catchAll (fun e => ("Error: " ++ e.str, jerr e.str))
    (read_file_body env file_path encoding max_size_mb)

/-! ## Write (FileWriter.write_file) -/

/-- The `try` of `FileWriter.write_file`, with its mutation trace. -/
def write_file_body (env : OSEnv) (file_path content encoding : String)
    (overwrite : Bool) : Except PyErr (String × String) × List MutOp :=
  match env.resolve file_path with
  | .error e => (.error e, [])
  | .ok path =>
    if env.pathExists path && !overwrite then
      (.ok ("Error: File exists and overwrite is False",
            dumpsObj [("error", .str "File exists"), ("path", .str path)]), [])
    else
      match env.mkdirParentsRes (env.parent path) with
      | .error e => (.error e, [.mkdirParents (env.parent path)])
      | .ok _ =>
        match env.writeRes path content encoding with
        | .error e => (.error e, [.mkdirParents (env.parent path),
                                  .writeOp path content encoding])
        | .ok _ =>
          match env.statSize path with
          | .error e => (.error e, [.mkdirParents (env.parent path),
                                    .writeOp path content encoding])
          | .ok sz =>
            match env.statMtime path with
            | .error e => (.error e, [.mkdirParents (env.parent path),
                                      .writeOp path content encoding])
            | .ok mt =>
              (.ok ("Successfully wrote " ++ toString content.length ++
                      " characters to " ++ env.pathName path,
                    dumpsObj [("name", .str (env.pathName path)), ("path", .str path),
                              ("size", .num (sz : Int)), ("modified", .num mt),
                              ("encoding", .str encoding)]),
               [.mkdirParents (env.parent path), .writeOp path content encoding])

/-- `FileWriter.write_file`: returns `(status, file_info)`. -/
def write_file (env : OSEnv) (file_path content encoding : String)
    (overwrite : Bool) : Except PyErr (String × String) × List MutOp :=
  catchAllT (fun e => ("Error: " ++ e.str, jerr e.str))
    (write_file_body env file_path content encoding overwrite)

/-! ## Copy (FileCopy.copy_file) -/

/-- The `try` of `FileCopy.copy_file`, with its mutation trace. -/
def copy_file_body (env : OSEnv) (source_path destination_path : String)
    (overwrite : Bool) : Except PyErr (String × String) × List MutOp :=
  match env.resolve source_path with
  | .error e => (.error e, [])
  | .ok src =>
    match env.resolve destination_path with
    | .error e => (.error e, [])
    | .ok dst =>
      if !env.pathExists src then
        (.ok ("Error: Source file does not exist", jerr "Source does not exist"), [])
      else if !env.isFile src then
        (.ok ("Error: Source is not a file", jerr "Source is not a file"), [])
      else if env.pathExists dst && !overwrite then
        (.ok ("Error: Destination exists and overwrite is False",
              jerr "Destination exists"), [])
      else
        match env.mkdirParentsRes (env.parent dst) with
        | .error e => (.error e, [.mkdirParents (env.parent dst)])
        | .ok _ =>
          match env.copyRes src dst with
          | .error e => (.error e, [.mkdirParents (env.parent dst), .copyOp src dst])
          | .ok _ =>
            match env.statSize dst with
            | .error e => (.error e, [.mkdirParents (env.parent dst), .copyOp src dst])
            | .ok sz =>
              match env.statMtime dst with
              | .error e => (.error e, [.mkdirParents (env.parent dst), .copyOp src dst])
              | .ok mt =>
                (.ok ("Successfully copied " ++ env.pathName src ++ " to " ++ dst,
                      dumpsObj [("source", .str src), ("destination", .str dst),
                                ("size", .num (sz : Int)), ("modified", .num mt)]),
                 [.mkdirParents (env.parent dst), .copyOp src dst])

/-- `FileCopy.copy_file`: returns `(status, file_info)`. -/
def copy_file (env : OSEnv) (source_path destination_path : String)
    (overwrite : Bool) : Except PyErr (String × String) × List MutOp :=
  catchAllT (fun e => ("Error: " ++ e.str, jerr e.str))
    (copy_file_body env source_path destination_path overwrite)

/-! ## Exec (ShellExecutor.execute_command) -/

/-- The timeout diagnostic built by the `except subprocess.TimeoutExpired`
clause. -/
def timeoutMsg (timeout_seconds : Nat) : String :=
  "Error: Command timed out after " ++ toString timeout_seconds ++ " seconds"

/-- The `subprocess.run(...)` call and the reading of its result. -/
def execRun (env : OSEnv) (command : String) (cwd : Option String)
    (timeout_seconds : Nat) (capture_output : Bool) :
    Except PyErr (String × String × Int) :=
  match env.run command cwd timeout_seconds capture_output with
  | .completed o e c => .ok (orEmpty o, orEmpty e, c)
  | .timedOut po pe => .error (.timeout po pe)
  | .failed m => .error (.other m)

/-- The `try` of `ShellExecutor.execute_command`.  The empty string
models the falsy `working_directory` (Python's `None` default) that
skips working-directory resolution. -/
def execute_command_body (env : OSEnv) (command working_directory : String)
    (timeout_seconds : Nat) (capture_output : Bool) :
    Except PyErr (String × String × Int) :=
  if working_directory != "" then
    match env.resolve working_directory with
    | .error e => .error e
    | .ok cwd =>
      if !(env.pathExists cwd && env.isDir cwd) then
        .ok ("", "Error: Working directory does not exist: " ++ cwd, -1)
      else execRun env command (some cwd) timeout_seconds capture_output
  else execRun env command none timeout_seconds capture_output

/-- The `except subprocess.TimeoutExpired` / `except Exception` pair of
`execute_command`; note the timeout clause discards any partial output
the exception object carries. -/
def execCatch (timeout_seconds : Nat) :
    Except PyErr (String × String × Int) → Except PyErr (String × String × Int)
  | .ok t => .ok t
  | .error (.timeout _ _) => .ok ("", timeoutMsg timeout_seconds, -1)
  | .error e => .ok ("", "Error: " ++ e.str, -1)

/-- `ShellExecutor.execute_command`: returns `(stdout, stderr, return_code)`. -/
def execute_command (env : OSEnv) (command working_directory : String)
    (timeout_seconds : Nat) (capture_output : Bool) :
    Except PyErr (String × String × Int) :=
  execCatch timeout_seconds
    (execute_command_body env command working_directory timeout_seconds capture_output)

/-! ## MakeDir (DirectoryCreator.create_directory) -/

/-- The `try` of `DirectoryCreator.create_directory`, with its trace. -/
def create_directory_body (env : OSEnv) (directory_path : String)
    (create_parents : Bool) : Except PyErr (String × String) × List MutOp :=
  match env.resolve directory_path with
  | .error e => (.error e, [])
  | .ok path =>
    if env.pathExists path then
      if env.isDir path then
        (.ok ("Directory already exists: " ++ path,
              dumpsObj [("path", .str path), ("exists", .bool true)]), [])
      else
        (.ok ("Error: Path exists but is not a directory",
              jerr "Path is not a directory"), [])
    else
      match env.mkdirRes path create_parents with
      | .error e => (.error e, [.mkdirOp path create_parents])
      | .ok _ =>
        match env.statMtime path with
        | .error e => (.error e, [.mkdirOp path create_parents])
        | .ok mt =>
          (.ok ("Successfully created directory: " ++ path,
                dumpsObj [("path", .str path), ("created", .bool true),
                          ("modified", .num mt)]),
           [.mkdirOp path create_parents])

/-- `DirectoryCreator.create_directory`: returns `(status, directory_info)`. -/
def create_directory (env : OSEnv) (directory_path : String)
    (create_parents : Bool) : Except PyErr (String × String) × List MutOp :=
  catchAllT (fun e => ("Error: " ++ e.str, jerr e.str))
    (create_directory_body env directory_path create_parents)

/-! ## Delete (FileDelete.delete_file) -/

/-- The `try` of `FileDelete.delete_file`, with its trace.  The
confirmation gate is the first statement of the `try`, before
`Path(file_path).expanduser().resolve()`. -/
def delete_file_body (env : OSEnv) (file_path : String)
    (confirm_delete : Bool) : Except PyErr String × List MutOp :=
  if !confirm_delete then
    (.ok "Error: confirm_delete must be True to delete files", [])
  else
    match env.resolve file_path with
    | .error e => (.error e, [])
    | .ok path =>
      if !env.pathExists path then
        (.ok ("Error: File does not exist: " ++ path), [])
      else if !env.isFile path then
        (.ok ("Error: Path is not a file: " ++ path), [])
      else
        match env.unlinkRes path with
        | .error e => (.error e, [.unlinkOp path])
        | .ok _ => (.ok ("Successfully deleted: " ++ path), [.unlinkOp path])

/-- `FileDelete.delete_file`: returns `(status,)`. -/
def delete_file (env : OSEnv) (file_path : String)
    (confirm_delete : Bool) : Except PyErr String × List MutOp :=
  catchAllT (fun e => "Error: " ++ e.str)
    (delete_file_body env file_path confirm_delete)

/-! ## Concrete environments for witnesses and counterexamples -/

/-- A minimal concrete OS oracle: identity resolution, an empty world,
every primitive succeeding trivially.  Test environments below override
individual fields. -/
def baseEnv : OSEnv where
  resolve := fun s => .ok s
  pathExists := fun _ => false
  isDir := fun _ => false
  isFile := fun _ => false
  statSize := fun _ => .ok 0
  statMtime := fun _ => .ok 0
  pathName := fun s => s
  parent := fun _ => "/"
  iterdir := fun _ => .ok []
  globMatch := fun _ _ => false
  readText := fun _ _ => .ok ""
  readBinary := fun _ => .ok ""
  mkdirParentsRes := fun _ => .ok ()
  writeRes := fun _ _ _ => .ok ()
  copyRes := fun _ _ => .ok ()
  mkdirRes := fun _ _ => .ok ()
  unlinkRes := fun _ => .ok ()
  run := fun _ _ _ _ => .completed none none 0

/-! ## Helper lemmas -/

theorem catchAll_isOk (f : PyErr → α) (r : Except PyErr α) :
    ∃ t, catchAll f r = .ok t := by
  cases r with
  | ok t => exact ⟨t, rfl⟩
  | error e => exact ⟨f e, rfl⟩

theorem catchAllT_isOk (f : PyErr → α) (x : Except PyErr α × List MutOp) :
    ∃ t tr, catchAllT f x = (.ok t, tr) := by
  obtain ⟨r, tr⟩ := x
  cases r with
  | ok t => exact ⟨t, tr, rfl⟩
  | error e => exact ⟨f e, tr, rfl⟩

theorem execCatch_isOk (n : Nat) (r : Except PyErr (String × String × Int)) :
    ∃ t, execCatch n r = .ok t := by
  cases r with
  | ok t => exact ⟨t, rfl⟩
  | error e => cases e <;> exact ⟨_, rfl⟩

/-- The entry kept in the directories channel: visible (not hidden, or
hidden shown) and classified as a directory. -/
def dirKeep (show_hidden : Bool) (it : DirItem) : Bool :=
  (show_hidden || !(hiddenName it.name)) && it.isDir

/-- The entry kept in the files channel: visible, not a directory,
a regular file, and passing the filter pattern. -/
def fileKeep (show_hidden : Bool) (filter_pattern : String)
    (matchFn : String → String → Bool) (it : DirItem) : Bool :=
  (show_hidden || !(hiddenName it.name)) && !it.isDir && it.isFile &&
    (filter_pattern == "*" || matchFn it.path filter_pattern)

theorem browseLoop_eq_filter (sh : Bool) (pat : String)
    (mf : String → String → Bool) (items : List DirItem) :
    browseLoop sh pat mf items =
      (items.filter (fileKeep sh pat mf), items.filter (dirKeep sh)) := by
  induction items with
  | nil => simp [browseLoop]
  | cons x rest ih =>
    rw [browseLoop, ih]
    cases hsh : sh <;> cases hst : hiddenName x.name <;>
      cases hd : x.isDir <;> cases hf : x.isFile <;>
      cases hm : (pat == "*" || mf x.path pat) <;>
      simp [List.filter_cons, fileKeep, dirKeep, hsh, hst, hd, hf, hm]

theorem mem_browseEntries_files (sh : Bool) (pat : String)
    (mf : String → String → Bool) (items : List DirItem) (it : DirItem) :
    it ∈ (browseEntries sh pat mf items).1 ↔
      it ∈ items ∧ (sh || !(hiddenName it.name)) = true ∧
        it.isDir = false ∧ it.isFile = true ∧
        (pat == "*" || mf it.path pat) = true := by
  unfold browseEntries sortByName
  rw [browseLoop_eq_filter]
  simp only [List.mem_insertionSort, List.mem_filter, fileKeep]
  constructor
  · rintro ⟨hm, hk⟩
    simp only [Bool.and_eq_true, Bool.not_eq_true'] at hk
    exact ⟨hm, hk.1.1.1, hk.1.1.2, hk.1.2, hk.2⟩
  · rintro ⟨hm, h1, h2, h3, h4⟩
    refine ⟨hm, ?_⟩
    simp [h1, h2, h3, h4]

theorem mem_browseEntries_dirs (sh : Bool) (pat : String)
    (mf : String → String → Bool) (items : List DirItem) (it : DirItem) :
    it ∈ (browseEntries sh pat mf items).2 ↔
      it ∈ items ∧ (sh || !(hiddenName it.name)) = true ∧ it.isDir = true := by
  unfold browseEntries sortByName
  rw [browseLoop_eq_filter]
  simp only [List.mem_insertionSort, List.mem_filter, dirKeep]
  constructor
  · rintro ⟨hm, hk⟩
    simp only [Bool.and_eq_true] at hk
    exact ⟨hm, hk.1, hk.2⟩
  · rintro ⟨hm, h1, h2⟩
    refine ⟨hm, ?_⟩
    simp [h1, h2]

theorem browseEntries_sorted_files (sh : Bool) (pat : String)
    (mf : String → String → Bool) (items : List DirItem) :
    List.Sorted browseLe (browseEntries sh pat mf items).1 :=
  List.sorted_insertionSort browseLe _

theorem browseEntries_sorted_dirs (sh : Bool) (pat : String)
    (mf : String → String → Bool) (items : List DirItem) :
    List.Sorted browseLe (browseEntries sh pat mf items).2 :=
  List.sorted_insertionSort browseLe _

/-! ## Claim theorems -/

/-- C1: every operation handler (List, Read, Write, Copy, MakeDir,
Delete, Exec) returns, for every environment and every input, a value
of its declared output tuple shape (`Except.ok`) — no exception
(`Except.error`) ever escapes past a handler's catch clauses to the
caller; failures are encoded inside the returned tuple. -/
theorem all_handlers_return_ok :
    (∀ (env : OSEnv) (dp : String) (sh : Bool) (pat : String),
      ∃ t, browse_files env dp sh pat = .ok t) ∧
    (∀ (env : OSEnv) (fp enc : String) (m : Nat),
      ∃ t, read_file env fp enc m = .ok t) ∧
    (∀ (env : OSEnv) (fp c enc : String) (ow : Bool),
      ∃ t tr, write_file env fp c enc ow = (.ok t, tr)) ∧
    (∀ (env : OSEnv) (sp dp : String) (ow : Bool),
      ∃ t tr, copy_file env sp dp ow = (.ok t, tr)) ∧
    (∀ (env : OSEnv) (dp : String) (cp : Bool),
      ∃ t tr, create_directory env dp cp = (.ok t, tr)) ∧
    (∀ (env : OSEnv) (fp : String) (cd : Bool),
      ∃ t tr, delete_file env fp cd = (.ok t, tr)) ∧
    (∀ (env : OSEnv) (cmd wd : String) (ts : Nat) (cap : Bool),
      ∃ t, execute_command env cmd wd ts cap = .ok t) :=
  ⟨fun _ _ _ _ => catchAll_isOk _ _,
   fun _ _ _ _ => catchAll_isOk _ _,
   fun _ _ _ _ _ => catchAllT_isOk _ _,
   fun _ _ _ _ => catchAllT_isOk _ _,
   fun _ _ _ => catchAllT_isOk _ _,
   fun _ _ _ => catchAllT_isOk _ _,
   fun _ _ _ _ _ => execCatch_isOk _ _⟩

/-- C2: Delete with `confirm_delete = false` returns the
confirmation-required failure for every path and every environment —
its result does not depend on the environment at all (so path
resolution is never consulted) and its mutation trace is empty (the
filesystem is untouched). -/
theorem delete_unconfirmed_untouched :
    ∀ (env env2 : OSEnv) (file_path : String),
      delete_file env file_path false =
        (.ok "Error: confirm_delete must be True to delete files", []) ∧
      delete_file env file_path false = delete_file env2 file_path false :=
  fun _ _ _ => ⟨rfl, rfl⟩

/-- C3 counterexample: on a nonexistent path the third List output is
the caller's path string, not the error object — so it is false that
all three outputs carry the same error. -/
theorem browse_third_channel_not_error_cex :
    browse_files baseEnv "/missing" false "*" =
      .ok (jerr "Path does not exist", jerr "Path does not exist", "/missing") ∧
    "/missing" ≠ jerr "Path does not exist" :=
  ⟨rfl, by decide⟩

/-- C3 amended: whenever a List precondition is violated (not found,
not a directory, permission denied on enumeration), the files channel
and the directories channel carry the same error object; the third
channel carries the raw input path (for the first two violations) or
the resolved path (for permission denial), not the error. -/
theorem browse_error_channels_consistent :
    ∀ (env : OSEnv) (dp : String) (sh : Bool) (pat p : String),
      env.resolve dp = .ok p →
      ((env.pathExists p = false →
          browse_files env dp sh pat =
            .ok (jerr "Path does not exist", jerr "Path does not exist", dp)) ∧
       (env.pathExists p = true → env.isDir p = false →
          browse_files env dp sh pat =
            .ok (jerr "Path is not a directory", jerr "Path is not a directory", dp)) ∧
       (∀ m, env.pathExists p = true → env.isDir p = true →
          env.iterdir p = .error (.permission m) →
          browse_files env dp sh pat =
            .ok (jerr "Permission denied", jerr "Permission denied", p))) := by
  intro env dp sh pat p hres
  refine ⟨fun h1 => ?_, fun h1 h2 => ?_, fun m h1 h2 h3 => ?_⟩
  · simp [browse_files, browse_files_body, hres, h1, catchAll]
  · simp [browse_files, browse_files_body, hres, h1, h2, catchAll]
  · simp [browse_files, browse_files_body, browse_inner, hres, h1, h2, h3,
      catchPerm, catchAll]

/-- Environment where the target path is an unreadable directory. -/
def envPermDenied : OSEnv :=
  { baseEnv with
    pathExists := fun _ => true
    isDir := fun _ => true
    iterdir := fun _ => .error (.permission "denied") }

/-- Environment where the target path exists but is not a directory. -/
def envNotDir : OSEnv := { baseEnv with pathExists := fun _ => true }

theorem browse_error_channels_consistent_witness :
    browse_files baseEnv "/d" false "*" =
      .ok (jerr "Path does not exist", jerr "Path does not exist", "/d") ∧
    browse_files envNotDir "/d" false "*" =
      .ok (jerr "Path is not a directory", jerr "Path is not a directory", "/d") ∧
    browse_files envPermDenied "/d" false "*" =
      .ok (jerr "Permission denied", jerr "Permission denied", "/d") :=
  ⟨(browse_error_channels_consistent baseEnv "/d" false "*" "/d" rfl).1 rfl,
   (browse_error_channels_consistent envNotDir "/d" false "*" "/d" rfl).2.1 rfl rfl,
   (browse_error_channels_consistent envPermDenied "/d" false "*" "/d" rfl).2.2
     "denied" rfl rfl rfl⟩

/-- C4: whenever the child process hits the timeout (for a call that
reached `subprocess.run`, i.e. with no working directory or with a
valid one), the result is `("", diagnostic naming the timeout
duration, -1)`; the partial output `po`/`pe` collected before
termination is discarded, never merged into the result. -/
theorem exec_timeout_result :
    ∀ (env : OSEnv) (cmd wd : String) (ts : Nat) (cap : Bool) (po pe p : String),
      (env.run cmd none ts cap = .timedOut po pe →
        execute_command env cmd "" ts cap = .ok ("", timeoutMsg ts, -1)) ∧
      (wd ≠ "" → env.resolve wd = .ok p → env.pathExists p = true → env.isDir p = true →
        env.run cmd (some p) ts cap = .timedOut po pe →
        execute_command env cmd wd ts cap = .ok ("", timeoutMsg ts, -1)) := by
  intro env cmd wd ts cap po pe p
  constructor
  · intro hrun
    simp [execute_command, execute_command_body, execRun, hrun, execCatch]
  · intro hwd hres h1 h2 hrun
    simp [execute_command, execute_command_body, execRun, hwd, hres, h1, h2,
      hrun, execCatch]

/-- Environment whose child process always runs into the timeout. -/
def envTimeout : OSEnv :=
  { baseEnv with run := fun _ _ _ _ => .timedOut "partial out" "partial err" }

theorem exec_timeout_result_witness :
    execute_command envTimeout "sleep 5" "" 1 true =
      .ok ("", "Error: Command timed out after 1 seconds", -1) :=
  (exec_timeout_result envTimeout "sleep 5" "" 1 true "partial out" "partial err"
    "").1 rfl

/-- C5 counterexample: a child process that completes normally with
return code −1 (as `subprocess` reports for a child killed by signal 1)
is passed through the normal-completion path and yields −1, so −1 is
not reserved exclusively for "did not run / did not complete". -/
def envNegOne : OSEnv :=
  { baseEnv with run := fun _ _ _ _ => .completed none none (-1) }

theorem exec_negone_from_normal_completion_cex :
    envNegOne.run "some-command" none 30 true = .completed none none (-1) ∧
    execute_command envNegOne "some-command" "" 30 true = .ok ("", "", -1) :=
  ⟨rfl, rfl⟩

/-- C5 amended: for every normally-completed child, the result is
`(stdout-or-empty, stderr-or-empty, real-exit-code)` with the child's
return code passed through unchanged (any integer, nonzero included, is
a gateway-level success); the gateway's own failure paths report −1,
but −1 is not exclusive to them, since a normal completion can itself
report −1 (see the counterexample). -/
theorem exec_exit_code_passthrough :
    ∀ (env : OSEnv) (cmd wd : String) (ts : Nat) (cap : Bool)
      (o e : Option String) (c : Int) (p : String),
      (env.run cmd none ts cap = .completed o e c →
        execute_command env cmd "" ts cap = .ok (orEmpty o, orEmpty e, c)) ∧
      (wd ≠ "" → env.resolve wd = .ok p → env.pathExists p = true → env.isDir p = true →
        env.run cmd (some p) ts cap = .completed o e c →
        execute_command env cmd wd ts cap = .ok (orEmpty o, orEmpty e, c)) := by
  intro env cmd wd ts cap o e c p
  constructor
  · intro hrun
    simp [execute_command, execute_command_body, execRun, hrun, execCatch]
  · intro hwd hres h1 h2 hrun
    simp [execute_command, execute_command_body, execRun, hwd, hres, h1, h2,
      hrun, execCatch]

/-- Environment whose child exits normally with code 7 and some output. -/
def envSeven : OSEnv :=
  { baseEnv with run := fun _ _ _ _ => .completed (some "out") (some "") 7 }

theorem exec_exit_code_passthrough_witness :
    execute_command envSeven "exit 7" "" 30 true = .ok ("out", "", 7) :=
  (exec_exit_code_passthrough envSeven "exit 7" "" 30 true (some "out") (some "")
    7 "").1 rfl

/-- C10: with `capture_output = false`, `subprocess.run` leaves the
`stdout`/`stderr` attributes as `None` (modelled by the `.completed
none none c` hypothesis), so on normal completion the returned stdout
and stderr slots are both the empty string and only the exit-code slot
carries information. -/
theorem exec_nocapture_empty_output :
    ∀ (env : OSEnv) (cmd wd : String) (ts : Nat) (c : Int) (p : String),
      (env.run cmd none ts false = .completed none none c →
        execute_command env cmd "" ts false = .ok ("", "", c)) ∧
      (wd ≠ "" → env.resolve wd = .ok p → env.pathExists p = true → env.isDir p = true →
        env.run cmd (some p) ts false = .completed none none c →
        execute_command env cmd wd ts false = .ok ("", "", c)) := by
  intro env cmd wd ts c p
  constructor
  · intro hrun
    simp [execute_command, execute_command_body, execRun, hrun, execCatch, orEmpty]
  · intro hwd hres h1 h2 hrun
    simp [execute_command, execute_command_body, execRun, hwd, hres, h1, h2,
      hrun, execCatch, orEmpty]

/-- Environment whose child exits with code 3, output not captured. -/
def envNoCapture : OSEnv :=
  { baseEnv with run := fun _ _ _ _ => .completed none none 3 }

theorem exec_nocapture_empty_output_witness :
    execute_command envNoCapture "echo hi" "" 30 false = .ok ("", "", 3) :=
  (exec_nocapture_empty_output envNoCapture "echo hi" "" 30 3 "").1 rfl

/-- C6: for an existing regular file whose size exceeds
`max_size_mb * 1024 * 1024`, Read returns the too-large failure whose
payload carries the actual size and whose content slot is the error
status, not file content; when the size is within the ceiling, the
result is exactly what the file-reading continuation produces — the
size precondition passes and no too-large failure is emitted. -/
theorem read_size_ceiling :
    ∀ (env : OSEnv) (fp enc : String) (msz : Nat) (p : String) (n : Nat),
      env.resolve fp = .ok p → env.pathExists p = true → env.isFile p = true →
      env.statSize p = .ok n →
      ((n > msz * 1024 * 1024 →
          read_file env fp enc msz =
            .ok (tooLargeStatus n msz,
                 dumpsObj [("error", .str "File too large"),
                           ("size", .num (n : Int))])) ∧
       (n ≤ msz * 1024 * 1024 →
          read_file env fp enc msz =
            catchAll (fun e => ("Error: " ++ e.str, jerr e.str))
              (read_file_content env p enc n))) := by
  intro env fp enc msz p n hres h1 h2 hsz
  constructor
  · intro hgt
    simp [read_file, read_file_body, hres, h1, h2, hsz, hgt, catchAll]
  · intro hle
    simp [read_file, read_file_body, hres, h1, h2, hsz, Nat.not_lt.mpr hle]

/-- Environment holding a single 2 MB regular file whose text reads as
`"hi"`. -/
def envBigFile : OSEnv :=
  { baseEnv with
    pathExists := fun _ => true
    isFile := fun _ => true
    statSize := fun _ => .ok 2097152
    statMtime := fun _ => .ok 5
    readText := fun _ _ => .ok "hi" }

theorem read_size_ceiling_witness :
    read_file envBigFile "/f" "utf-8" 1 =
      .ok (tooLargeStatus 2097152 1,
           dumpsObj [("error", .str "File too large"), ("size", .num 2097152)]) ∧
    read_file envBigFile "/f" "utf-8" 10 =
      catchAll (fun e => ("Error: " ++ e.str, jerr e.str))
        (read_file_content envBigFile "/f" "utf-8" 2097152) :=
  ⟨(read_size_ceiling envBigFile "/f" "utf-8" 1 "/f" 2097152 rfl rfl rfl rfl).1
     (by decide),
   (read_size_ceiling envBigFile "/f" "utf-8" 10 "/f" 2097152 rfl rfl rfl rfl).2
     (by decide)⟩

/-- C7: MakeDir on a path that already exists as a directory is an
idempotent no-op — it succeeds reporting `exists: true` with an empty
mutation trace (no filesystem change), so even two consecutive calls
perform no mutation at all; on a path that exists as a non-directory it
fails with the not-a-directory error. -/
theorem mkdir_existing_idempotent :
    ∀ (env : OSEnv) (dp : String) (cp : Bool) (p : String),
      env.resolve dp = .ok p →
      ((env.pathExists p = true → env.isDir p = true →
          create_directory env dp cp =
            (.ok ("Directory already exists: " ++ p,
                  dumpsObj [("path", .str p), ("exists", .bool true)]), []) ∧
          (create_directory env dp cp).2 ++ (create_directory env dp cp).2 = []) ∧
       (env.pathExists p = true → env.isDir p = false →
          create_directory env dp cp =
            (.ok ("Error: Path exists but is not a directory",
                  jerr "Path is not a directory"), []))) := by
  intro env dp cp p hres
  constructor
  · intro h1 h2
    constructor
    · simp [create_directory, create_directory_body, hres, h1, h2, catchAllT]
    · simp [create_directory, create_directory_body, hres, h1, h2, catchAllT]
  · intro h1 h2
    simp [create_directory, create_directory_body, hres, h1, h2, catchAllT]

/-- Environment where the target path already exists as a directory. -/
def envExistingDir : OSEnv :=
  { baseEnv with pathExists := fun _ => true, isDir := fun _ => true }

theorem mkdir_existing_idempotent_witness :
    (create_directory envExistingDir "/d" true =
       (.ok ("Directory already exists: /d",
             dumpsObj [("path", .str "/d"), ("exists", .bool true)]), []) ∧
     (create_directory envExistingDir "/d" true).2 ++
       (create_directory envExistingDir "/d" true).2 = []) ∧
    create_directory envNotDir "/d" true =
      (.ok ("Error: Path exists but is not a directory",
            jerr "Path is not a directory"), []) :=
  ⟨(mkdir_existing_idempotent envExistingDir "/d" true "/d" rfl).1 rfl rfl,
   (mkdir_existing_idempotent envNotDir "/d" true "/d" rfl).2 rfl rfl⟩

/-- C8: on a successful List, hidden-named entries are skipped unless
`show_hidden`; a kept child classified as a directory lands in the
directories output irrespective of the filter pattern; a kept child
classified as a regular file lands in the files output exactly when the
pattern is `"*"` or the child matches it; both outputs are sorted
case-insensitively by name; and `browse_files` returns exactly the
encodings of these two lists on success. -/
theorem browse_success_semantics :
    ∀ (sh : Bool) (pat : String) (mf : String → String → Bool) (items : List DirItem),
      (∀ it, it ∈ (browseEntries sh pat mf items).1 ↔
        it ∈ items ∧ (sh || !(hiddenName it.name)) = true ∧
          it.isDir = false ∧ it.isFile = true ∧
          (pat == "*" || mf it.path pat) = true) ∧
      (∀ it, it ∈ (browseEntries sh pat mf items).2 ↔
        it ∈ items ∧ (sh || !(hiddenName it.name)) = true ∧ it.isDir = true) ∧
      List.Sorted browseLe (browseEntries sh pat mf items).1 ∧
      List.Sorted browseLe (browseEntries sh pat mf items).2 ∧
      (∀ (env : OSEnv) (dp p : String),
        env.resolve dp = .ok p → env.pathExists p = true → env.isDir p = true →
        env.iterdir p = .ok items →
        browse_files env dp sh pat =
          .ok (dumpsArr ((browseEntries sh pat env.globMatch items).1.map itemFields),
               dumpsArr ((browseEntries sh pat env.globMatch items).2.map itemFields),
               p)) := by
  intro sh pat mf items
  refine ⟨fun it => mem_browseEntries_files sh pat mf items it,
          fun it => mem_browseEntries_dirs sh pat mf items it,
          browseEntries_sorted_files sh pat mf items,
          browseEntries_sorted_dirs sh pat mf items,
          fun env dp p hres h1 h2 hiter => ?_⟩
  simp [browse_files, browse_files_body, browse_inner, hres, h1, h2, hiter,
    catchPerm, catchAll]

/-- The spec's filter example: `a.txt`, `b.py`, subdirectory `sub`. -/
def itemATxt : DirItem :=
  { name := "a.txt", path := "/d/a.txt", size := 3, mtime := 0,
    isDir := false, isFile := true, isSymlink := false }

def itemBPy : DirItem :=
  { name := "b.py", path := "/d/b.py", size := 2, mtime := 0,
    isDir := false, isFile := true, isSymlink := false }

def itemSub : DirItem :=
  { name := "sub", path := "/d/sub", size := 0, mtime := 0,
    isDir := true, isFile := false, isSymlink := false }

/-- Environment exposing the spec's example directory, with a glob
oracle under which only `a.txt` matches `*.txt`. -/
def envExample : OSEnv :=
  { baseEnv with
    pathExists := fun _ => true
    isDir := fun _ => true
    iterdir := fun _ => .ok [itemATxt, itemBPy, itemSub]
    globMatch := fun pa _ => pa == "/d/a.txt" }

theorem browse_success_semantics_witness :
    browse_files envExample "/d" false "*.txt" =
      .ok (dumpsArr ((browseEntries false "*.txt" envExample.globMatch
              [itemATxt, itemBPy, itemSub]).1.map itemFields),
           dumpsArr ((browseEntries false "*.txt" envExample.globMatch
              [itemATxt, itemBPy, itemSub]).2.map itemFields),
           "/d") :=
  (browse_success_semantics false "*.txt" envExample.globMatch
    [itemATxt, itemBPy, itemSub]).2.2.2.2 envExample "/d" "/d" rfl rfl rfl rfl

/-- C9: a visible immediate child that is neither a directory nor a
regular file (e.g. a socket or FIFO whose metadata is readable) is
silently dropped from both the files output and the directories output
of a successful List — it is reported in neither channel and produces
no error. -/
theorem browse_drops_special_entries :
    ∀ (sh : Bool) (pat : String) (mf : String → String → Bool)
      (items : List DirItem) (it : DirItem),
      it ∈ items → hiddenName it.name = false →
      it.isDir = false → it.isFile = false →
      it ∉ (browseEntries sh pat mf items).1 ∧
        it ∉ (browseEntries sh pat mf items).2 := by
  intro sh pat mf items it hm hh hd hf
  constructor
  · intro hc
    rcases (mem_browseEntries_files sh pat mf items it).1 hc with ⟨_, _, _, h3, _⟩
    rw [hf] at h3
    exact Bool.false_ne_true h3
  · intro hc
    rcases (mem_browseEntries_dirs sh pat mf items it).1 hc with ⟨_, _, h3⟩
    rw [hd] at h3
    exact Bool.false_ne_true h3

/-- A FIFO entry: readable metadata, neither directory nor file. -/
def itemFifo : DirItem :=
  { name := "fifo", path := "/d/fifo", size := 0, mtime := 0,
    isDir := false, isFile := false, isSymlink := false }

theorem browse_drops_special_entries_witness :
    itemFifo ∉ (browseEntries false "*" (fun _ _ => false) [itemFifo]).1 ∧
      itemFifo ∉ (browseEntries false "*" (fun _ _ => false) [itemFifo]).2 :=
  browse_drops_special_entries false "*" (fun _ _ => false) [itemFifo] itemFifo
    (List.mem_singleton.mpr rfl) (by decide) rfl rfl
